import Mathlib

/-!
Verification development for the invoice resolution and analysis
orchestration core of the remote-mcp-functions-python repository.

The Python sources src/function_app.py and
src/content_understanding_service.py are shallowly embedded below.
Filesystem paths are modelled as lists of components (POSIX, no
symbolic links), the backing store as a boolean predicate on paths,
the environment as a partial map from variable names to strings, and
Python floats as exact rationals over the decimal literal forms the
configuration code is expected to receive.  Python exceptions that the
code raises or catches are modelled with explicit Except values.
-/

/-- Whitespace predicate modelling the characters removed by the Python
str.strip method on the ASCII range. -/
def isPyWs (c : Char) : Bool :=
  c = ' ' || c = '\t' || c = '\n' || c = '\r' || c = '\x0b' || c = '\x0c'

/-- Remove leading and trailing whitespace from a character list. -/
def stripChars (cs : List Char) : List Char :=
  ((cs.dropWhile isPyWs).reverse.dropWhile isPyWs).reverse

/-- Model of the Python str.strip method. -/
def pyStrip (s : String) : String :=
  String.mk (stripChars s.data)

/-- Split a character list at a separator character; the accumulator holds
the current chunk reversed. -/
def splitChar (sep : Char) : List Char → List Char → List (List Char)
  | [], acc => [acc.reverse]
  | c :: rest, acc =>
    if c = sep then acc.reverse :: splitChar sep rest []
    else splitChar sep rest (c :: acc)

/-- Component list of a relative or absolute POSIX path string, as produced
by pathlib: split on the separator, dropping empty chunks and single-dot
chunks.  Mirrors the parts attribute of pathlib.Path for relative paths. -/
def pathParts (s : String) : List String :=
  ((splitChar '/' s.data []).map (fun cs => String.mk cs)).filter
    (fun c => !(c == "") && !(c == "."))

/-- A path string is absolute when it starts with the separator, as in
pathlib.Path.is_absolute on POSIX. -/
def isAbsolutePath (s : String) : Bool :=
  match s.data with
  | '/' :: _ => true
  | _ => false

/-- Model of the Python str.lower method on the ASCII range. -/
def lowerStr (s : String) : String :=
  String.mk (s.data.map Char.toLower)

/-- Final component of a path given as a component list, as in
pathlib.Path.name. -/
def lastComponent (l : List String) : String :=
  (l.getLast?).getD ""

/-- Render an absolute path given by its component list to the string that
Python str would produce for the corresponding pathlib.Path. -/
def renderChars (l : List String) : List Char :=
  l.foldl (fun acc c => acc ++ '/' :: c.data) []

/-- String form of an absolute path component list. -/
def renderPath (l : List String) : String :=
  String.mk (renderChars l)

/-- Model of the Python str.startswith check used on rendered paths. -/
def startsWithPath (target root : List String) : Bool :=
  (renderChars root).isPrefixOf (renderChars target)

/-- Model of the Python expression (a or b) for an optional string a and a
string b: a non-empty string on the left is truthy and wins. -/
def pyOrDefault (o : Option String) (d : String) : String :=
  match o with
  | some s => if s = "" then d else s
  | none => d

/-- Model of the Python expression (a or b) for two optional strings. -/
def pyOrOpt (a b : Option String) : Option String :=
  match a with
  | some s => if s = "" then b else some s
  | none => b

/-- Python truthiness of an optional string: None and the empty string are
falsy. -/
def pyTruthy : Option String → Bool
  | some s => !(s == "")
  | none => false

/-- Model of the Python expression (o or None) for an optional string. -/
def pyOptOrNone : Option String → Option String
  | some s => if s = "" then none else some s
  | none => none

/-- Python float values as far as the configuration code can observe them:
a finite value, not-a-number, or a signed infinity.  Finite values are kept
as exact rationals; IEEE binary64 rounding, underflow of tiny literals to
zero and overflow of huge literals to infinity are outside the model and do
not change the sign or comparability class of any value the positivity
guard inspects. -/
inductive PyFloat where
  | num (q : Rat)
  | nan
  | inf
  | ninf
deriving DecidableEq

/-- IEEE-style less-or-equal on PyFloat: any comparison with nan is
false. -/
def PyFloat.le : PyFloat → PyFloat → Bool
  | .nan, _ => false
  | _, .nan => false
  | .ninf, _ => true
  | .num _, .ninf => false
  | .num a, .num b => decide (a ≤ b)
  | .num _, .inf => true
  | .inf, .inf => true
  | .inf, _ => false

/-- IEEE-style strict less-than on PyFloat: any comparison with nan is
false. -/
def PyFloat.lt : PyFloat → PyFloat → Bool
  | .nan, _ => false
  | _, .nan => false
  | .ninf, .ninf => false
  | .ninf, _ => true
  | .num _, .ninf => false
  | .num a, .num b => decide (a < b)
  | .num _, .inf => true
  | .inf, _ => false

/-- Scan the tail of a digit part: digits with single underscores allowed
only between digits, as in the CPython float grammar.  Returns the
accumulated value and the number of digits consumed. -/
def dpAfterDigit : List Char → Nat → Nat → Option (Nat × Nat)
  | [], acc, n => some (acc, n)
  | c :: rest, acc, n =>
    if c.isDigit then dpAfterDigit rest (acc * 10 + (c.toNat - 48)) (n + 1)
    else if c = '_' then
      match rest with
      | c2 :: rest2 =>
        if c2.isDigit then dpAfterDigit rest2 (acc * 10 + (c2.toNat - 48)) (n + 1)
        else none
      | [] => none
    else none

/-- A digit part of the CPython float grammar: a digit followed by digits
with optional single underscores between them. -/
def parseDigitPart (cs : List Char) : Option (Nat × Nat) :=
  match cs with
  | [] => none
  | c :: rest => if c.isDigit then dpAfterDigit rest (c.toNat - 48) 1 else none

/-- The mantissa of a float literal: digits with an optional single point,
at least one digit overall. -/
def parseMantissa (cs : List Char) : Option Rat :=
  match splitChar '.' cs [] with
  | [ip] => (parseDigitPart ip).map (fun p => (p.1 : Rat))
  | [ip, fp] =>
    match ip, fp with
    | [], [] => none
    | [], _ => (parseDigitPart fp).map (fun p => (p.1 : Rat) / (10 : Rat) ^ p.2)
    | _, [] => (parseDigitPart ip).map (fun p => (p.1 : Rat))
    | _, _ =>
      match parseDigitPart ip, parseDigitPart fp with
      | some a, some b => some ((a.1 : Rat) + (b.1 : Rat) / (10 : Rat) ^ b.2)
      | _, _ => none
  | _ => none

/-- The exponent of a float literal: an optional sign and a digit part. -/
def parseExp (cs : List Char) : Option Int :=
  match cs with
  | '+' :: rest => (parseDigitPart rest).map (fun p => (p.1 : Int))
  | '-' :: rest => (parseDigitPart rest).map (fun p => -(p.1 : Int))
  | _ => (parseDigitPart cs).map (fun p => (p.1 : Int))

/-- Model of the Python float constructor on its ASCII spellings: strip
whitespace, an optional sign, then case-insensitively nan, inf or infinity,
or a decimal literal with optional fraction, optional exponent, and single
underscores between digits.  Unicode digit and whitespace forms are outside
the model. -/
def pyFloat? (s : String) : Option PyFloat :=
  let t := (pyStrip s).data
  let neg : Bool := match t with
    | '-' :: _ => true
    | _ => false
  let body : List Char := match t with
    | '-' :: rest => rest
    | '+' :: rest => rest
    | _ => t
  let lower := body.map Char.toLower
  if lower = "nan".data then some PyFloat.nan
  else if lower = "inf".data ∨ lower = "infinity".data then
    some (if neg then PyFloat.ninf else PyFloat.inf)
  else
    match splitChar 'e' lower [] with
    | [m] => (parseMantissa m).map (fun q => PyFloat.num (if neg then -q else q))
    | [m, ex] =>
      match parseMantissa m, parseExp ex with
      | some q, some k =>
        some (PyFloat.num (if neg then -(q * (10 : Rat) ^ k) else q * (10 : Rat) ^ k))
      | _, _ => none
    | _ => none

/-- JSON values as decoded by json.loads: the argument payloads that reach
the tool boundary. -/
inductive Json where
  | null
  | bool (b : Bool)
  | num (n : Int)
  | str (s : String)
  | arr (xs : List Json)
  | obj (fields : List (String × Json))

/-- Whether a JSON value is a string, as tested by isinstance(value, str). -/
def Json.isStr : Json → Bool
  | .str _ => true
  | _ => false

/-- Key lookup in a decoded JSON object, as in dict.get. -/
def jsonLookup (fields : List (String × Json)) (key : String) : Option Json :=
  match fields with
  | [] => none
  | (k, v) :: rest => if k = key then some v else jsonLookup rest key

/-! ## Embedding of src/content_understanding_service.py -/

namespace ContentUnderstanding

/-- Error raised by the service layer: ContentUnderstandingServiceError.
The Python class is a single exception kind carrying a message string; the
constructors below record which raise site produced the message, and
ServiceError.message recovers the exact message text. -/
inductive ServiceError where
  | configError (msg : String)
  | fileNotFound (path : String)
  | missingAnalyzer
  | analysisFailed (details : String)

/-- The message string carried by the raised ContentUnderstandingServiceError. -/
def ServiceError.message : ServiceError → String
  | .configError m => m
  | .fileNotFound p => "Invoice file not found: " ++ p
  | .missingAnalyzer => "Analyzer ID is required for invoice analysis."
  | .analysisFailed d => "Failed to analyze invoice: " ++ d

/-- InvoiceAnalysisRequest dataclass. -/
structure InvoiceAnalysisRequest where
  file_path : List String
  content_type : Option String := none
  file_name : Option String := none
  analyzer_id : Option String := none

/-- The frozen _ServiceConfig dataclass. -/
structure ServiceConfig where
  endpoint : String
  analyzer_id : String
  api_version : String
  user_agent : String
  poll_interval_seconds : PyFloat
  poll_timeout_seconds : PyFloat
  subscription_key : Option String
deriving DecidableEq

/-- Mutable state of the ContentUnderstandingService instance relevant to
configuration resolution: the memoized _config field. -/
structure ServiceState where
  config : Option ServiceConfig
deriving DecidableEq

/-- Environment variable access, modelling os.getenv. -/
def EnvMap : Type := String → Option String

def _DEFAULT_ANALYZER_ID : String := "prebuilt-invoice"
def _DEFAULT_API_VERSION : String := "2025-05-01-preview"
def _DEFAULT_USER_AGENT : String := "remote-mcp-functions-python/1.0"
def _DEFAULT_POLL_INTERVAL_SECONDS : PyFloat := .num 2
def _DEFAULT_POLL_TIMEOUT_SECONDS : PyFloat := .num 180

def endpointRequiredMsg : String :=
  "CONTENT_UNDERSTANDING_ENDPOINT is required to call Azure AI Content Understanding."

/-- _get_float_env: read a float override from the environment; a missing
or unparsable value falls back to the default, and so does a parsed value
for which the comparison value less-or-equal zero holds (the positivity
ValueError is caught by the same handler as the parse failure).  A parsed
nan compares false against zero and is therefore returned, not
defaulted. -/
def _get_float_env (env : EnvMap) (name : String) (default : PyFloat) : PyFloat :=
  match env name with
  | none => default
  | some raw_value =>
    match pyFloat? raw_value with
    | none => default
    | some value => if value.le (.num 0) then default else value

/-- The body of _ensure_configuration that runs when no snapshot is cached:
read the environment, apply defaults, and fail when the endpoint is empty. -/
def resolveConfigFresh (env : EnvMap) : Except ServiceError ServiceConfig :=
  let endpoint := pyStrip (pyOrDefault (env "CONTENT_UNDERSTANDING_ENDPOINT") "")
  let subscription_key :=
    let k := pyStrip (pyOrDefault (env "CONTENT_UNDERSTANDING_API_KEY") "")
    if k = "" then none else some k
  let analyzer_id :=
    pyStrip (pyOrDefault (env "CONTENT_UNDERSTANDING_ANALYZER_ID") _DEFAULT_ANALYZER_ID)
  let api_version :=
    pyStrip (pyOrDefault (env "CONTENT_UNDERSTANDING_API_VERSION") _DEFAULT_API_VERSION)
  let analyzer_id := if analyzer_id = "" then _DEFAULT_ANALYZER_ID else analyzer_id
  let api_version := if api_version = "" then _DEFAULT_API_VERSION else api_version
  if endpoint = "" then
    .error (.configError endpointRequiredMsg)
  else
    let user_agent :=
      pyStrip (pyOrDefault (env "CONTENT_UNDERSTANDING_USER_AGENT") _DEFAULT_USER_AGENT)
    let poll_interval :=
      _get_float_env env "CONTENT_UNDERSTANDING_POLL_INTERVAL_SECONDS" _DEFAULT_POLL_INTERVAL_SECONDS
    let poll_timeout :=
      _get_float_env env "CONTENT_UNDERSTANDING_POLL_TIMEOUT_SECONDS" _DEFAULT_POLL_TIMEOUT_SECONDS
    .ok
      { endpoint := endpoint
        analyzer_id := analyzer_id
        api_version := api_version
        user_agent := user_agent
        poll_interval_seconds := poll_interval
        poll_timeout_seconds := poll_timeout
        subscription_key := subscription_key }

/-- _ensure_configuration: return the cached snapshot when present,
otherwise resolve a fresh one and cache it on success. -/
def _ensure_configuration (env : EnvMap) (st : ServiceState) :
    Except ServiceError ServiceConfig × ServiceState :=
  match st.config with
  | some c => (.ok c, st)
  | none =>
    match resolveConfigFresh env with
    | .error e => (.error e, st)
    | .ok c => (.ok c, { config := some c })

/-- The effective analyzer identifier of analyze_invoice:
(request.analyzer_id or config.analyzer_id or "").strip(). -/
def effectiveAnalyzerId (request : InvoiceAnalysisRequest) (config : ServiceConfig) : String :=
  pyStrip (pyOrDefault request.analyzer_id config.analyzer_id)

/-- _build_analysis_response output shape: the success envelope assembled by
ContentUnderstandingService.analyze_invoice. -/
structure AnalysisResponse where
  analyzerId : String
  apiVersion : String
  contentType : Option String
  fileName : Option String
  result : Json

/-- Steps 2 to 6 of ContentUnderstandingService.analyze_invoice, run once a
configuration snapshot is available.  The backing store is the predicate fs;
the external client (begin_analyze followed by poll_result) is the function
client, returning either the parsed result payload or the text of the raised
client-level exception (AzureContentUnderstandingClientError, OSError or
ValueError), which the service wraps. -/
def analyzeWithConfig (config : ServiceConfig) (fs : List String → Bool)
    (client : String → List String → Option String → Except String Json)
    (request : InvoiceAnalysisRequest) : Except ServiceError AnalysisResponse :=
  if fs request.file_path = false then
    .error (.fileNotFound (renderPath request.file_path))
  else
    let analyzer_id := effectiveAnalyzerId request config
    if analyzer_id = "" then
      .error .missingAnalyzer
    else
      match client analyzer_id request.file_path request.content_type with
      | .error exc => .error (.analysisFailed exc)
      | .ok result =>
        .ok
          { analyzerId := analyzer_id
            apiVersion := config.api_version
            contentType := request.content_type
            fileName := request.file_name
            result := result }

/-- ContentUnderstandingService.analyze_invoice: resolve the configuration
(memoized), then run the orchestration steps. -/
def analyze_invoice (env : EnvMap) (st : ServiceState) (fs : List String → Bool)
    (client : String → List String → Option String → Except String Json)
    (request : InvoiceAnalysisRequest) :
    Except ServiceError AnalysisResponse × ServiceState :=
  match _ensure_configuration env st with
  | (.error e, st2) => (.error e, st2)
  | (.ok config, st2) => (analyzeWithConfig config fs client request, st2)

end ContentUnderstanding

/-! ## Embedding of src/function_app.py -/

namespace FunctionApp

open ContentUnderstanding

/-- Exceptions that escape the analyze_invoice tool handler unhandled.  The
try block around json.loads catches only TypeError and
json.JSONDecodeError, so an AttributeError raised by calling .get on a
non-dict decoded payload propagates. -/
inductive PyExc where
  | attributeError (msg : String)

def attrGetMsg : String := "object has no attribute get"

/-- The expression content.get(key, default) on a decoded JSON value:
available only on dict values, AttributeError otherwise. -/
def pyDictGet (v : Json) (key : String) (dflt : Json) : Except PyExc Json :=
  match v with
  | .obj fields => .ok ((jsonLookup fields key).getD dflt)
  | _ => .error (.attributeError attrGetMsg)

/-- _get_trimmed_argument: read arguments.get(key) and return the stripped
string when the value is a string, None otherwise.  Raises AttributeError
when the arguments value itself is not a dict. -/
def _get_trimmed_argument (arguments : Json) (key : String) :
    Except PyExc (Option String) :=
  match arguments with
  | .obj fields =>
    match jsonLookup fields key with
    | some (.str s) => .ok (some (pyStrip s))
    | _ => .ok none
  | _ => .error (.attributeError attrGetMsg)

/-- Messages of the ValueError raise sites in _load_invoice_from_data. -/
def emptyIdMsg : String := "invoiceId must be a relative path inside the data directory."
def traversalMsg : String := "invoiceId must not be absolute or traverse outside the data directory."
def rootOnlyMsg : String := "invoiceId must specify a file within the data directory."
def escapeMsg : String := "invoiceId must resolve inside the data directory."

/-- Failure modes of _load_invoice_from_data: ValueError with a message, or
FileNotFoundError. -/
inductive LoadError where
  | invalidRef (msg : String)
  | notFound

/-- The StoredFile view returned by _load_invoice_from_data. -/
structure StoredFile where
  path : List String
  content_type : Option String
  file_name : String

/-- Model of mimetypes.guess_type restricted to the extension table entries
relevant to invoice documents; unknown extensions map to none. -/
def guessType (name : String) : Option String :=
  if strEnds name ".pdf" then some "application/pdf"
  else if strEnds name ".jpg" || strEnds name ".jpeg" then some "image/jpeg"
  else if strEnds name ".png" then some "image/png"
  else if strEnds name ".tif" || strEnds name ".tiff" then some "image/tiff"
  else none
where
  strEnds (s suf : String) : Bool := suf.data.isSuffixOf s.data

/-- The test request_parts and request_parts[0].lower() == data_segment and
len(request_parts) == 1: the identifier names the data directory alone. -/
def rootNameOnly (root : List String) (parts : List String) : Bool :=
  match parts with
  | [p] => lowerStr p == lowerStr (lastComponent root)
  | _ => false

/-- Strip a leading component that case-insensitively matches the name of
the data directory, the caller convenience in lines 236 to 241. -/
def stripRootSegment (root : List String) (parts : List String) : List String :=
  match parts with
  | p :: rest => if lowerStr p = lowerStr (lastComponent root) then rest else p :: rest
  | [] => []

/-- The canonical absolute target (data_root / request_path).resolve() for an
identifier that passed the component checks: in the symlink-free model,
resolution of a dot-free, dotdot-free relative path under the canonical root
is concatenation. -/
def resolveTarget (root : List String) (id : String) : List String :=
  root ++ stripRootSegment root (pathParts (pyStrip id))

/-- _load_invoice_from_data: validate and resolve an untrusted identifier to
a stored file under the data root.  root is the component list of the
canonical _DATA_DIRECTORY; fs tells which absolute paths exist. -/
def _load_invoice_from_data (root : List String) (fs : List String → Bool)
    (invoice_id : String) : Except LoadError StoredFile :=
  let sanitized_id := pyStrip invoice_id
  if sanitized_id = "" then
    .error (.invalidRef emptyIdMsg)
  else
    let request_parts := pathParts sanitized_id
    if isAbsolutePath sanitized_id = true ∨ ".." ∈ request_parts then
      .error (.invalidRef traversalMsg)
    else if rootNameOnly root request_parts = true then
      .error (.invalidRef rootOnlyMsg)
    else
      let target_path := root ++ stripRootSegment root request_parts
      if startsWithPath target_path root = false then
        .error (.invalidRef escapeMsg)
      else if fs target_path = false then
        .error .notFound
      else
        .ok
          { path := target_path
            content_type := guessType (lastComponent target_path)
            file_name := lastComponent target_path }

/-- The error envelope dict json-dumped back to the caller. -/
def errEnvelope (e d : String) : Json :=
  .obj [("error", .str e), ("details", .str d)]

def fileNameRequiredEnvelope : Json :=
  errEnvelope "fileName is required"
    "Provide the file name relative to the data directory, for example invoice_sample.jpg."

/-- The success payload dict json-dumped back to the caller: the analysis
response passed through json.dumps verbatim. -/
def responseJson (r : AnalysisResponse) : Json :=
  .obj
    [("analyzerId", .str r.analyzerId),
     ("apiVersion", .str r.apiVersion),
     ("contentType", match r.contentType with | some s => .str s | none => .null),
     ("fileName", match r.fileName with | some s => .str s | none => .null),
     ("result", r.result)]

/-- The analyze_invoice tool handler.  decoded is the outcome of
json.loads(context) (a TypeError or JSONDecodeError is the .error case and
is caught); svc is the call into
content_understanding_service.analyze_invoice, whose
ContentUnderstandingServiceError is the only exception the handler
catches from it.  An .error result of the handler is an exception escaping
the tool boundary unhandled. -/
def analyze_invoice (root : List String) (fs : List String → Bool)
    (svc : InvoiceAnalysisRequest → Except ServiceError AnalysisResponse)
    (decoded : Except String Json) : Except PyExc Json :=
  match decoded with
  | .error err => .ok (errEnvelope "Invalid request payload" err)
  | .ok content =>
    match pyDictGet content "arguments" (Json.obj []) with
    | .error e => .error e
    | .ok arguments =>
      match _get_trimmed_argument arguments "invoiceId" with
      | .error e => .error e
      | .ok invoice_id =>
        match _get_trimmed_argument arguments "fileName" with
        | .error e => .error e
        | .ok file_name_argument =>
          match _get_trimmed_argument arguments "contentType" with
          | .error e => .error e
          | .ok content_type0 =>
            match pyOrOpt invoice_id file_name_argument with
            | none => .ok fileNameRequiredEnvelope
            | some source_identifier =>
              if source_identifier = "" then .ok fileNameRequiredEnvelope
              else
                match _load_invoice_from_data root fs source_identifier with
                | .error (.invalidRef msg) =>
                  .ok (errEnvelope "Invalid file reference" msg)
                | .error .notFound =>
                  .ok (errEnvelope "Invoice sample not found"
                        ("Add " ++ source_identifier ++ " to the data directory."))
                | .ok stored_invoice =>
                  let file_name := pyOrDefault file_name_argument stored_invoice.file_name
                  let content_type :=
                    if pyTruthy content_type0 = false ∧ pyTruthy stored_invoice.content_type = true
                    then stored_invoice.content_type else content_type0
                  match _get_trimmed_argument arguments "analyzerId" with
                  | .error e => .error e
                  | .ok analyzer_id =>
                    let request : InvoiceAnalysisRequest :=
                      { file_path := stored_invoice.path
                        content_type := pyOptOrNone content_type
                        file_name := if file_name = "" then none else some file_name
                        analyzer_id := pyOptOrNone analyzer_id }
                    match svc request with
                    | .error exc =>
                      .ok (errEnvelope "Unable to analyze invoice" exc.message)
                    | .ok analysis => .ok (responseJson analysis)

end FunctionApp

/-! ## General helper lemmas -/

theorem dropWhile_idem (p : α → Bool) (l : List α) :
    (l.dropWhile p).dropWhile p = l.dropWhile p := by
  induction l with
  | nil => rfl
  | cons c t ih =>
    by_cases h : p c
    · simp [List.dropWhile_cons, h, ih]
    · simp [List.dropWhile_cons, h]

theorem head?_dropWhile_false (p : α → Bool) (l : List α) (c : α)
    (h : (l.dropWhile p).head? = some c) : p c = false := by
  induction l with
  | nil => simp at h
  | cons a t ih =>
    rw [List.dropWhile_cons] at h
    by_cases hp : p a
    · rw [if_pos hp] at h
      exact ih h
    · rw [if_neg hp] at h
      simp at h
      subst h
      simpa using hp

theorem getLast?_dropWhile (p : α → Bool) (l : List α) :
    l.dropWhile p = [] ∨
      (l.dropWhile p ≠ [] ∧ (l.dropWhile p).getLast? = l.getLast?) := by
  induction l with
  | nil => left; rfl
  | cons a t ih =>
    rw [List.dropWhile_cons]
    by_cases hp : p a
    · rw [if_pos hp]
      rcases ih with h1 | ⟨hne, h2⟩
      · left; exact h1
      · right
        refine ⟨hne, ?_⟩
        rw [h2]
        cases t with
        | nil => exact absurd rfl hne
        | cons b bs => rw [List.getLast?_cons_cons]
    · rw [if_neg hp]
      right
      exact ⟨by simp, rfl⟩

theorem dropWhile_reverse_dropWhile (p : α → Bool) (l : List α)
    (hl : ∀ c, l.head? = some c → p c = false) :
    ((l.reverse.dropWhile p).reverse).dropWhile p = (l.reverse.dropWhile p).reverse := by
  rcases getLast?_dropWhile p l.reverse with h1 | ⟨hne, h2⟩
  · rw [h1]
    rfl
  · have hgl : (l.reverse.dropWhile p).getLast? = l.head? := by
      rw [h2, List.getLast?_reverse]
    cases hl' : l.head? with
    | none =>
      exfalso
      apply hne
      have hnil : l = [] := by
        cases l with
        | nil => rfl
        | cons x xs => simp at hl'
      rw [hnil]
      rfl
    | some c0 =>
      have hws : p c0 = false := hl c0 hl'
      have hh : ((l.reverse.dropWhile p).reverse).head? = some c0 := by
        rw [List.head?_reverse, hgl, hl']
      cases her : (l.reverse.dropWhile p).reverse with
      | nil => rw [her] at hh; simp at hh
      | cons x xs =>
        rw [her] at hh
        simp at hh
        subst hh
        rw [List.dropWhile_cons, if_neg (by simp [hws])]

theorem stripChars_idem (cs : List Char) : stripChars (stripChars cs) = stripChars cs := by
  unfold stripChars
  have h1 := dropWhile_reverse_dropWhile isPyWs (cs.dropWhile isPyWs)
      (fun c hc => head?_dropWhile_false isPyWs cs c hc)
  rw [h1, List.reverse_reverse, dropWhile_idem]

theorem pyStrip_idem (s : String) : pyStrip (pyStrip s) = pyStrip s := by
  show String.mk (stripChars (stripChars s.data)) = String.mk (stripChars s.data)
  rw [stripChars_idem]

theorem foldl_render_extend (parts : List String) (acc : List Char) :
    ∃ t, List.foldl (fun a c => a ++ '/' :: c.data) acc parts = acc ++ t := by
  induction parts generalizing acc with
  | nil => exact ⟨[], by simp⟩
  | cons p ps ih =>
    obtain ⟨t, ht⟩ := ih (acc ++ '/' :: p.data)
    exact ⟨('/' :: p.data) ++ t, by simp only [List.foldl_cons, ht, List.append_assoc]⟩

theorem isPrefixOf_self_append (a t : List Char) : a.isPrefixOf (a ++ t) = true := by
  induction a with
  | nil => simp
  | cons c cs ih => simp [List.isPrefixOf_cons₂, ih]

theorem startsWithPath_append (root parts : List String) :
    startsWithPath (root ++ parts) root = true := by
  unfold startsWithPath renderChars
  rw [List.foldl_append]
  obtain ⟨t, ht⟩ := foldl_render_extend parts (List.foldl (fun a c => a ++ '/' :: c.data) [] root)
  rw [ht]
  exact isPrefixOf_self_append _ _

/-! ## Concrete fixtures used by closed theorems and witnesses -/

open ContentUnderstanding FunctionApp

/-- Example canonical data root, standing for the resolved _DATA_DIRECTORY. -/
def exRoot : List String := ["home", "site", "data"]

/-- Example backing store: the data directory exists and contains exactly
invoice_sample.jpg. -/
def exFs : List String → Bool := fun p =>
  (p == exRoot ++ ["invoice_sample.jpg"]) || (p == exRoot)

/-- Example service stub used where the behavior of the analysis call is
irrelevant to the statement. -/
def exSvcErr : InvoiceAnalysisRequest → Except ServiceError AnalysisResponse :=
  fun _ => .error .missingAnalyzer

/-- A path lies inside (or at) the given root. -/
def pathInside (root p : List String) : Prop := ∃ rest, p = root ++ rest

/-- A path is a proper descendant of the root: inside it and distinct
from it. -/
def strictlyInside (root p : List String) : Prop := pathInside root p ∧ p ≠ root

/-! ## Claim C1 -/

/-- Claim C1, counterexample: the identifier consisting of a single dot is
accepted by the identifier resolver and resolves to the data root itself,
which is not a proper descendant of the root.  The claim asserts that every
accepted identifier resolves to a proper descendant and that every
non-descendant resolution is rejected with InvalidReference; the dot
identifier violates both halves. -/
theorem claim_C1_counterexample :
    _load_invoice_from_data exRoot exFs "." =
      Except.ok { path := exRoot, content_type := none, file_name := "data" } ∧
    ¬ strictlyInside exRoot exRoot := by
  refine ⟨rfl, fun hc => hc.2 rfl⟩

/-- Claim C1 as amended: every identifier accepted by the resolver yields a
path that lies inside the canonical data root (equality with the root is
possible, so descendant-or-equal rather than proper descendant), in the
symlink-free path model. -/
theorem claim_C1_amended (root : List String) (fs : List String → Bool) (id : String)
    (sf : StoredFile)
    (h : _load_invoice_from_data root fs id = Except.ok sf) :
    pathInside root sf.path := by
  simp only [_load_invoice_from_data] at h
  split at h
  · simp at h
  · split at h
    · simp at h
    · split at h
      · simp at h
      · split at h
        · simp at h
        · split at h
          · simp at h
          · simp only [Except.ok.injEq] at h
            exact ⟨stripRootSegment root (pathParts (pyStrip id)), by rw [← h]⟩

/-- Witness for the amended claim C1 at a concrete accepted identifier. -/
theorem claim_C1_amended_witness :
    pathInside exRoot (exRoot ++ ["invoice_sample.jpg"]) :=
  claim_C1_amended exRoot exFs "invoice_sample.jpg"
    { path := exRoot ++ ["invoice_sample.jpg"]
      content_type := some "image/jpeg"
      file_name := "invoice_sample.jpg" } rfl

/-! ## Claim C2 -/

/-- Claim C2 evaluated at the failing input: when the decoded tool payload
is a JSON array rather than an object, the call to content.get inside
analyze_invoice raises AttributeError, which the handler does not catch
(its except clause covers only TypeError and JSONDecodeError), so an
exception escapes the tool boundary instead of an error envelope. -/
theorem claim_C2_nonobject_payload_raises :
    analyze_invoice exRoot exFs exSvcErr (Except.ok (Json.arr [])) =
      Except.error (PyExc.attributeError attrGetMsg) := rfl

/-! ## Claim C3 -/

theorem pathParts_empty : pathParts "" = [] := rfl

theorem load_dotdot (root : List String) (fs : List String → Bool) (id : String)
    (h : ".." ∈ pathParts (pyStrip id)) :
    _load_invoice_from_data root fs id = Except.error (.invalidRef traversalMsg) := by
  have hs : ¬ pyStrip id = "" := by
    intro he
    rw [he, pathParts_empty] at h
    simp at h
  simp only [_load_invoice_from_data]
  rw [if_neg hs, if_pos (Or.inr h)]

/-- Claim C3: any identifier whose sanitized component list contains a
parent-directory segment is rejected with the traversal ValueError, for
every backing store and every analysis service (so neither an existence
check nor an analysis submission can influence or observe the call), and
the tool handler returns the Invalid file reference envelope built from
that message. -/
theorem claim_C3_dotdot_rejected (root : List String) (fs : List String → Bool)
    (svc : InvoiceAnalysisRequest → Except ServiceError AnalysisResponse) (id : String)
    (h : ".." ∈ pathParts (pyStrip id)) :
    _load_invoice_from_data root fs id = Except.error (.invalidRef traversalMsg) ∧
    FunctionApp.analyze_invoice root fs svc
        (Except.ok (Json.obj [("arguments", Json.obj [("invoiceId", Json.str id)])])) =
      Except.ok (errEnvelope "Invalid file reference" traversalMsg) := by
  have hs : ¬ pyStrip id = "" := by
    intro he
    rw [he, pathParts_empty] at h
    simp at h
  have h2 : ".." ∈ pathParts (pyStrip (pyStrip id)) := by rw [pyStrip_idem]; exact h
  refine ⟨load_dotdot root fs id h, ?_⟩
  have hload : _load_invoice_from_data root fs (pyStrip id) =
      Except.error (.invalidRef traversalMsg) := load_dotdot root fs (pyStrip id) h2
  simp [FunctionApp.analyze_invoice, pyDictGet, jsonLookup, _get_trimmed_argument,
    pyOrOpt, hs, hload]

/-- Witness for claim C3 at a concrete traversal identifier. -/
theorem claim_C3_dotdot_rejected_witness :
    _load_invoice_from_data exRoot exFs "../../etc/passwd" =
      Except.error (.invalidRef traversalMsg) ∧
    FunctionApp.analyze_invoice exRoot exFs exSvcErr
        (Except.ok (Json.obj
          [("arguments", Json.obj [("invoiceId", Json.str "../../etc/passwd")])])) =
      Except.ok (errEnvelope "Invalid file reference" traversalMsg) :=
  claim_C3_dotdot_rejected exRoot exFs exSvcErr "../../etc/passwd" (by decide)

/-! ## Claim C8 -/

/-- The three component checks of _load_invoice_from_data that precede the
canonical-prefix and existence checks. -/
def passesValidation (root : List String) (id : String) : Prop :=
  pyStrip id ≠ "" ∧
  ¬(isAbsolutePath (pyStrip id) = true ∨ ".." ∈ pathParts (pyStrip id)) ∧
  rootNameOnly root (pathParts (pyStrip id)) = false

/-- Whether an Except value is a success. -/
def exceptOk {ε α : Type} : Except ε α → Bool
  | .ok _ => true
  | .error _ => false

/-- Claim C8: for every identifier that passes validation (its resolved
path then lies under the root by construction), resolution succeeds exactly
when the resolved path exists on the backing store; when it does not exist,
the failure is FileNotFoundError and the tool handler reports the Invoice
sample not found envelope. -/
theorem claim_C8_success_iff_exists (root : List String) (fs : List String → Bool)
    (svc : InvoiceAnalysisRequest → Except ServiceError AnalysisResponse) (id : String)
    (h : passesValidation root id) :
    exceptOk (_load_invoice_from_data root fs id) = fs (resolveTarget root id) ∧
    (fs (resolveTarget root id) = false →
      _load_invoice_from_data root fs id = Except.error LoadError.notFound) ∧
    (fs (resolveTarget root id) = false →
      FunctionApp.analyze_invoice root fs svc
          (Except.ok (Json.obj [("arguments", Json.obj [("invoiceId", Json.str id)])])) =
        Except.ok (errEnvelope "Invoice sample not found"
          ("Add " ++ pyStrip id ++ " to the data directory."))) := by
  obtain ⟨h1, h2, h3⟩ := h
  have hmain : ∀ g : List String → Bool,
      _load_invoice_from_data root g id =
        (if g (resolveTarget root id) = false then Except.error LoadError.notFound
         else Except.ok
          { path := resolveTarget root id
            content_type := guessType (lastComponent (resolveTarget root id))
            file_name := lastComponent (resolveTarget root id) }) := by
    intro g
    simp only [_load_invoice_from_data, resolveTarget]
    rw [if_neg h1, if_neg h2, if_neg (by simp [h3]),
      if_neg (by simp [startsWithPath_append])]
  refine ⟨?_, ?_, ?_⟩
  · rw [hmain fs]
    by_cases hfs : fs (resolveTarget root id) = false
    · rw [if_pos hfs, hfs]
      rfl
    · rw [if_neg hfs]
      cases hx : fs (resolveTarget root id) with
      | false => exact absurd hx hfs
      | true => rfl
  · intro hfs
    rw [hmain fs, if_pos hfs]
  · intro hfs
    have h1i : pyStrip (pyStrip id) ≠ "" := by rw [pyStrip_idem]; exact h1
    have h2i : ¬(isAbsolutePath (pyStrip (pyStrip id)) = true ∨
        ".." ∈ pathParts (pyStrip (pyStrip id))) := by rw [pyStrip_idem]; exact h2
    have h3i : rootNameOnly root (pathParts (pyStrip (pyStrip id))) = false := by
      rw [pyStrip_idem]; exact h3
    have hfsi : fs (resolveTarget root (pyStrip id)) = false := by
      simp only [resolveTarget]
      rw [pyStrip_idem]
      exact hfs
    have hload : _load_invoice_from_data root fs (pyStrip id) =
        Except.error LoadError.notFound := by
      simp only [_load_invoice_from_data]
      rw [if_neg h1i, if_neg h2i, if_neg (by simp [h3i]),
        if_neg (by simp [startsWithPath_append])]
      rw [if_pos (by simpa only [resolveTarget] using hfsi)]
    simp [FunctionApp.analyze_invoice, pyDictGet, jsonLookup, _get_trimmed_argument,
      pyOrOpt, h1, hload]

/-- Witness for claim C8 at a concrete validated identifier that is absent
from the backing store. -/
theorem claim_C8_success_iff_exists_witness :
    exceptOk (_load_invoice_from_data exRoot exFs "missing.pdf") =
      exFs (resolveTarget exRoot "missing.pdf") ∧
    _load_invoice_from_data exRoot exFs "missing.pdf" =
      Except.error LoadError.notFound ∧
    FunctionApp.analyze_invoice exRoot exFs exSvcErr
        (Except.ok (Json.obj
          [("arguments", Json.obj [("invoiceId", Json.str "missing.pdf")])])) =
      Except.ok (errEnvelope "Invoice sample not found"
        ("Add " ++ pyStrip "missing.pdf" ++ " to the data directory.")) := by
  have h := claim_C8_success_iff_exists exRoot exFs exSvcErr "missing.pdf"
    (by constructor
        · decide
        · constructor
          · decide
          · decide)
  exact ⟨h.1, h.2.1 (by decide), h.2.2 (by decide)⟩

/-! ## Claim C10 -/

/-- Claim C10: at the tool boundary a non-string argument value is handled
exactly like an absent argument: _get_trimmed_argument yields None for it
just as for a missing key, and a non-string fileName with no invoiceId
produces the fileName-is-required envelope rather than an exception. -/
theorem claim_C10_nonstring_arguments (root : List String) (fs : List String → Bool)
    (svc : InvoiceAnalysisRequest → Except ServiceError AnalysisResponse)
    (key : String) (v w : Json) (hv : v.isStr = false) (hw : w.isStr = false) :
    _get_trimmed_argument (Json.obj [(key, v)]) key = Except.ok none ∧
    _get_trimmed_argument (Json.obj []) key = Except.ok none ∧
    FunctionApp.analyze_invoice root fs svc
        (Except.ok (Json.obj
          [("arguments", Json.obj [("fileName", v), ("analyzerId", w)])])) =
      Except.ok fileNameRequiredEnvelope := by
  refine ⟨?_, rfl, ?_⟩
  · cases v <;> simp_all [_get_trimmed_argument, jsonLookup, Json.isStr]
  · cases v <;>
      simp_all [FunctionApp.analyze_invoice, pyDictGet, jsonLookup,
        _get_trimmed_argument, pyOrOpt, Json.isStr]

/-- Witness for claim C10 with a numeric fileName and a boolean analyzerId. -/
theorem claim_C10_nonstring_arguments_witness :
    _get_trimmed_argument (Json.obj [("fileName", Json.num 5)]) "fileName" =
      Except.ok none ∧
    _get_trimmed_argument (Json.obj []) "fileName" = Except.ok none ∧
    FunctionApp.analyze_invoice exRoot exFs exSvcErr
        (Except.ok (Json.obj
          [("arguments", Json.obj
            [("fileName", Json.num 5), ("analyzerId", Json.bool true)])])) =
      Except.ok fileNameRequiredEnvelope :=
  claim_C10_nonstring_arguments exRoot exFs exSvcErr "fileName"
    (Json.num 5) (Json.bool true) rfl rfl

/-! ## Claim C4 -/

/-- A poll override is discarded by _get_float_env when the variable is
unset, does not parse as a float, or parses to a value that compares
less-or-equal to zero.  A nan override parses and compares false, so it is
not discarded. -/
def pollOverrideDiscarded (env : EnvMap) (name : String) : Bool :=
  match env name with
  | none => true
  | some raw =>
    match pyFloat? raw with
    | none => true
    | some q => q.le (.num 0)

theorem get_float_env_not_le_zero (env : EnvMap) (name : String) (d : PyFloat)
    (hd : d.le (.num 0) = false) :
    (_get_float_env env name d).le (.num 0) = false := by
  cases he : env name with
  | none => simp only [_get_float_env, he]; exact hd
  | some raw =>
    cases hp : pyFloat? raw with
    | none => simp only [_get_float_env, he, hp]; exact hd
    | some v =>
      cases hv : v.le (.num 0) with
      | true => simp only [_get_float_env, he, hp, hv, if_pos]; exact hd
      | false => simp only [_get_float_env, he, hp, hv, if_neg]; exact hv

theorem get_float_env_discarded (env : EnvMap) (name : String) (d : PyFloat)
    (h : pollOverrideDiscarded env name = true) :
    _get_float_env env name d = d := by
  unfold pollOverrideDiscarded at h
  cases he : env name with
  | none => simp only [_get_float_env, he]
  | some raw =>
    simp only [he] at h
    cases hp : pyFloat? raw with
    | none => simp only [_get_float_env, he, hp]
    | some v =>
      simp only [hp] at h
      simp only [_get_float_env, he, hp, if_pos h]

/-- A PyFloat that does not compare less-or-equal to zero is strictly
positive unless it is nan. -/
theorem lt_zero_of_not_le_zero (v : PyFloat) (h : v.le (.num 0) = false)
    (hn : v ≠ PyFloat.nan) : (PyFloat.num 0).lt v = true := by
  cases v with
  | num a =>
    simp only [PyFloat.le, decide_eq_false_iff_not, not_le] at h
    simp only [PyFloat.lt, decide_eq_true_eq]
    exact h
  | nan => exact absurd rfl hn
  | inf => rfl
  | ninf => simp [PyFloat.le] at h

/-- Environment fixture for the claim C4 counterexample: a nan timeout
override, which CPython float() parses. -/
def exEnvNan : EnvMap := fun n =>
  if n = "CONTENT_UNDERSTANDING_ENDPOINT" then some "https://cu.example.com"
  else if n = "CONTENT_UNDERSTANDING_POLL_TIMEOUT_SECONDS" then some "nan"
  else none

/-- The snapshot resolved from exEnvNan: nan reaches the snapshot. -/
def exConfigNan : ServiceConfig :=
  { endpoint := "https://cu.example.com"
    analyzer_id := "prebuilt-invoice"
    api_version := "2025-05-01-preview"
    user_agent := "remote-mcp-functions-python/1.0"
    poll_interval_seconds := .num 2
    poll_timeout_seconds := PyFloat.nan
    subscription_key := none }

/-- Claim C4, counterexample: the override nan parses as a float, is not
strictly positive (every comparison with nan is false, so the guard value
less-or-equal zero does not fire), and is propagated into the snapshot
instead of being replaced by the default 180, refuting both the
strict-positivity and the never-propagated halves of the claim. -/
theorem claim_C4_counterexample :
    resolveConfigFresh exEnvNan = Except.ok exConfigNan ∧
    exConfigNan.poll_timeout_seconds = PyFloat.nan ∧
    (PyFloat.num 0).lt PyFloat.nan = false ∧
    PyFloat.nan ≠ _DEFAULT_POLL_TIMEOUT_SECONDS := by
  refine ⟨rfl, rfl, rfl, by decide⟩

/-- Claim C4 as amended: the resolved poll values never compare
less-or-equal to zero; an override that is unset, fails to parse, or parses
to a value comparing less-or-equal to zero is replaced by the defaults 2.0
and 180.0; and the resolved values are strictly positive in every case
except a propagated nan, which parses yet is neither less-or-equal to zero
nor strictly positive. -/
theorem claim_C4_amended (env : EnvMap) (c : ServiceConfig)
    (h : resolveConfigFresh env = Except.ok c) :
    PyFloat.le c.poll_interval_seconds (.num 0) = false ∧
    PyFloat.le c.poll_timeout_seconds (.num 0) = false ∧
    (pollOverrideDiscarded env "CONTENT_UNDERSTANDING_POLL_INTERVAL_SECONDS" = true →
      c.poll_interval_seconds = PyFloat.num 2) ∧
    (pollOverrideDiscarded env "CONTENT_UNDERSTANDING_POLL_TIMEOUT_SECONDS" = true →
      c.poll_timeout_seconds = PyFloat.num 180) ∧
    (c.poll_interval_seconds ≠ PyFloat.nan →
      (PyFloat.num 0).lt c.poll_interval_seconds = true) ∧
    (c.poll_timeout_seconds ≠ PyFloat.nan →
      (PyFloat.num 0).lt c.poll_timeout_seconds = true) := by
  simp only [resolveConfigFresh] at h
  split at h
  · simp at h
  · simp only [Except.ok.injEq] at h
    subst h
    have hi : PyFloat.le
        (_get_float_env env "CONTENT_UNDERSTANDING_POLL_INTERVAL_SECONDS"
          _DEFAULT_POLL_INTERVAL_SECONDS) (.num 0) = false :=
      get_float_env_not_le_zero env _ _ (by rfl)
    have ht : PyFloat.le
        (_get_float_env env "CONTENT_UNDERSTANDING_POLL_TIMEOUT_SECONDS"
          _DEFAULT_POLL_TIMEOUT_SECONDS) (.num 0) = false :=
      get_float_env_not_le_zero env _ _ (by rfl)
    refine ⟨hi, ht, ?_, ?_, ?_, ?_⟩
    · intro hd
      exact get_float_env_discarded env _ _ hd
    · intro hd
      exact get_float_env_discarded env _ _ hd
    · intro hn
      exact lt_zero_of_not_le_zero _ hi hn
    · intro hn
      exact lt_zero_of_not_le_zero _ ht hn

/-- Environment fixture for the claim C4 witness: an unparsable interval
override and a negative timeout override. -/
def exEnvC4 : EnvMap := fun n =>
  if n = "CONTENT_UNDERSTANDING_ENDPOINT" then some "https://cu.example.com"
  else if n = "CONTENT_UNDERSTANDING_POLL_INTERVAL_SECONDS" then some "abc"
  else if n = "CONTENT_UNDERSTANDING_POLL_TIMEOUT_SECONDS" then some "-5"
  else none

/-- The snapshot resolved from exEnvC4. -/
def exConfigC4 : ServiceConfig :=
  { endpoint := "https://cu.example.com"
    analyzer_id := "prebuilt-invoice"
    api_version := "2025-05-01-preview"
    user_agent := "remote-mcp-functions-python/1.0"
    poll_interval_seconds := .num 2
    poll_timeout_seconds := .num 180
    subscription_key := none }

/-- Witness for the amended claim C4: the overrides abc and -5 are both
discarded and the defaults, strictly positive, reach the snapshot. -/
theorem claim_C4_amended_witness :
    PyFloat.le exConfigC4.poll_interval_seconds (.num 0) = false ∧
    PyFloat.le exConfigC4.poll_timeout_seconds (.num 0) = false ∧
    exConfigC4.poll_interval_seconds = PyFloat.num 2 ∧
    exConfigC4.poll_timeout_seconds = PyFloat.num 180 ∧
    (PyFloat.num 0).lt exConfigC4.poll_interval_seconds = true ∧
    (PyFloat.num 0).lt exConfigC4.poll_timeout_seconds = true := by
  have h := claim_C4_amended exEnvC4 exConfigC4 rfl
  exact ⟨h.1, h.2.1, h.2.2.1 rfl, h.2.2.2.1 rfl,
    h.2.2.2.2.1 (by decide), h.2.2.2.2.2 (by decide)⟩

/-! ## Claim C7 -/

/-- Claim C7: configuration resolution is memoized and idempotent.  After a
call returns a snapshot successfully, any later call returns the identical
snapshot and leaves the state unchanged, for an arbitrary (possibly
different) environment: no environment variable is re-read. -/
theorem claim_C7_config_memoized (env env2 : EnvMap) (st st2 : ServiceState)
    (c : ServiceConfig)
    (h : _ensure_configuration env st = (Except.ok c, st2)) :
    _ensure_configuration env2 st2 = (Except.ok c, st2) := by
  simp only [_ensure_configuration] at h ⊢
  cases hst : st.config with
  | some c0 =>
    simp only [hst] at h
    simp only [Prod.mk.injEq, Except.ok.injEq] at h
    obtain ⟨hc, hs⟩ := h
    subst hc
    rw [← hs, hst]
  | none =>
    simp only [hst] at h
    cases hr : resolveConfigFresh env with
    | error e => simp only [hr] at h; simp at h
    | ok c1 =>
      simp only [hr] at h
      simp only [Prod.mk.injEq, Except.ok.injEq] at h
      obtain ⟨hc, hs⟩ := h
      subst hc
      rw [← hs]

/-- Environment fixture with only the endpoint set. -/
def exEnvFull : EnvMap := fun n =>
  if n = "CONTENT_UNDERSTANDING_ENDPOINT" then some "https://cu.example.com" else none

/-- Witness for claim C7: after the first successful resolution, the
configuration is served from the cache even under an environment in which
every variable has disappeared. -/
theorem claim_C7_config_memoized_witness :
    _ensure_configuration (fun _ => none) { config := some exConfigC4 } =
      (Except.ok exConfigC4, { config := some exConfigC4 }) :=
  claim_C7_config_memoized exEnvC4 (fun _ => none) { config := none }
    { config := some exConfigC4 } exConfigC4 rfl

/-! ## Claim C5 -/

/-- A backing store on which every path exists. -/
def fsTrue : List String → Bool := fun _ => true

/-- A client stub that always succeeds with an empty result object. -/
def exClientOk : String → List String → Option String → Except String Json :=
  fun _ _ _ => .ok (Json.obj [])

/-- Configuration fixture with the default analyzer identifier. -/
def exConfig : ServiceConfig := exConfigC4

/-- Request fixture whose analyzer override is whitespace only. -/
def exReqWs : InvoiceAnalysisRequest :=
  { file_path := ["home", "site", "data", "invoice_sample.jpg"]
    analyzer_id := some " " }

/-- Claim C5, counterexample: a whitespace-only analyzer override is truthy
in Python, so it shadows the non-empty configuration default and the
operation fails with the MissingAnalyzer error even though the two
candidates are not both empty after trimming, contradicting the exactly-when
condition of the claim. -/
theorem claim_C5_counterexample :
    analyzeWithConfig exConfig fsTrue exClientOk exReqWs =
      Except.error ServiceError.missingAnalyzer ∧
    ¬(pyStrip exConfig.analyzer_id = "") := by
  exact ⟨rfl, by decide⟩

/-- Claim C5 as amended: the effective analyzer identifier is the trim of
the first truthy candidate (the request override when it is a non-empty
string, otherwise the configuration default), and the operation fails with
MissingAnalyzer exactly when that selected candidate is empty after
trimming; on success the envelope carries exactly the effective
identifier. -/
theorem claim_C5_amended (config : ServiceConfig) (fs : List String → Bool)
    (client : String → List String → Option String → Except String Json)
    (request : InvoiceAnalysisRequest) (hfs : fs request.file_path = true) :
    (analyzeWithConfig config fs client request =
        Except.error ServiceError.missingAnalyzer ↔
      effectiveAnalyzerId request config = "") ∧
    (∀ resp, analyzeWithConfig config fs client request = Except.ok resp →
      resp.analyzerId = effectiveAnalyzerId request config) := by
  have hfs2 : ¬ (fs request.file_path = false) := by simp [hfs]
  constructor
  · constructor
    · intro h
      by_cases he : effectiveAnalyzerId request config = ""
      · exact he
      · exfalso
        simp only [analyzeWithConfig] at h
        rw [if_neg hfs2, if_neg he] at h
        cases hc : client (effectiveAnalyzerId request config) request.file_path
            request.content_type with
        | error e => rw [hc] at h; simp at h
        | ok r => rw [hc] at h; simp at h
    · intro he
      simp only [analyzeWithConfig]
      rw [if_neg hfs2, if_pos he]
  · intro resp h
    simp only [analyzeWithConfig] at h
    rw [if_neg hfs2] at h
    by_cases he : effectiveAnalyzerId request config = ""
    · rw [if_pos he] at h; simp at h
    · rw [if_neg he] at h
      cases hc : client (effectiveAnalyzerId request config) request.file_path
          request.content_type with
      | error e => rw [hc] at h; simp at h
      | ok r =>
        rw [hc] at h
        simp only [Except.ok.injEq] at h
        rw [← h]

/-- Request fixture with a substantive analyzer override. -/
def exReqCustom : InvoiceAnalysisRequest :=
  { file_path := ["home", "site", "data", "invoice_sample.jpg"]
    analyzer_id := some "custom-analyzer" }

/-- Witness for the amended claim C5 at a request whose override is a
non-empty identifier. -/
theorem claim_C5_amended_witness :
    (analyzeWithConfig exConfig fsTrue exClientOk exReqCustom =
        Except.error ServiceError.missingAnalyzer ↔
      effectiveAnalyzerId exReqCustom exConfig = "") ∧
    AnalysisResponse.analyzerId
        { analyzerId := "custom-analyzer"
          apiVersion := "2025-05-01-preview"
          contentType := none
          fileName := none
          result := Json.obj [] } =
      effectiveAnalyzerId exReqCustom exConfig :=
  ⟨(claim_C5_amended exConfig fsTrue exClientOk exReqCustom rfl).1,
   (claim_C5_amended exConfig fsTrue exClientOk exReqCustom rfl).2 _ rfl⟩

/-! ## Claim C6 -/

/-- Claim C6: every successful analysis returns exactly the envelope with
fields analyzerId, apiVersion, contentType, fileName and result, where
analyzerId is the effective identifier actually used, apiVersion comes from
the configuration, contentType and fileName come from the request, and
result is the client payload passed through verbatim. -/
theorem claim_C6_success_envelope (config : ServiceConfig) (fs : List String → Bool)
    (client : String → List String → Option String → Except String Json)
    (request : InvoiceAnalysisRequest) (resp : AnalysisResponse)
    (h : analyzeWithConfig config fs client request = Except.ok resp) :
    client (effectiveAnalyzerId request config) request.file_path
        request.content_type = Except.ok resp.result ∧
    resp =
      { analyzerId := effectiveAnalyzerId request config
        apiVersion := config.api_version
        contentType := request.content_type
        fileName := request.file_name
        result := resp.result } := by
  simp only [analyzeWithConfig] at h
  by_cases hfs : fs request.file_path = false
  · rw [if_pos hfs] at h; simp at h
  · rw [if_neg hfs] at h
    by_cases he : effectiveAnalyzerId request config = ""
    · rw [if_pos he] at h; simp at h
    · rw [if_neg he] at h
      cases hc : client (effectiveAnalyzerId request config) request.file_path
          request.content_type with
      | error e => rw [hc] at h; simp at h
      | ok r =>
        rw [hc] at h
        simp only [Except.ok.injEq] at h
        subst h
        exact ⟨rfl, rfl⟩

/-- Witness for claim C6 at a concrete successful analysis. -/
theorem claim_C6_success_envelope_witness :
    exClientOk (effectiveAnalyzerId exReqCustom exConfig) exReqCustom.file_path
        exReqCustom.content_type =
      Except.ok (AnalysisResponse.result
        { analyzerId := "custom-analyzer"
          apiVersion := "2025-05-01-preview"
          contentType := none
          fileName := none
          result := Json.obj [] }) ∧
    ({ analyzerId := "custom-analyzer"
       apiVersion := "2025-05-01-preview"
       contentType := none
       fileName := none
       result := Json.obj [] } : AnalysisResponse) =
      { analyzerId := effectiveAnalyzerId exReqCustom exConfig
        apiVersion := exConfig.api_version
        contentType := exReqCustom.content_type
        fileName := exReqCustom.file_name
        result := AnalysisResponse.result
          { analyzerId := "custom-analyzer"
            apiVersion := "2025-05-01-preview"
            contentType := none
            fileName := none
            result := Json.obj [] } } :=
  claim_C6_success_envelope exConfig fsTrue exClientOk exReqCustom
    { analyzerId := "custom-analyzer"
      apiVersion := "2025-05-01-preview"
      contentType := none
      fileName := none
      result := Json.obj [] } rfl

/-! ## Claim C9 -/

/-- Substring test used to examine error messages. -/
def strContains (s sub : String) : Bool :=
  s.data.tails.any (fun t => sub.data.isPrefixOf t)

/-- A client stub whose submit-or-poll step fails with a transport error. -/
def exClientFail : String → List String → Option String → Except String Json :=
  fun _ _ _ => .error "boom"

/-- Request fixture pointing at the sample invoice. -/
def exReqFile : InvoiceAnalysisRequest :=
  { file_path := ["home", "site", "data", "invoice_sample.jpg"] }

/-- Claim C9, counterexample: a submit-or-poll failure is re-raised as
ContentUnderstandingServiceError, but its message is only the fixed prefix
plus the client error text; the analyzer identifier, the endpoint and the
file reference appear in the log call, not in the message, so the message
contains none of them. -/
theorem claim_C9_counterexample :
    (ContentUnderstanding.analyze_invoice exEnvFull { config := none } fsTrue
        exClientFail exReqFile).1 =
      Except.error (ServiceError.analysisFailed "boom") ∧
    strContains (ServiceError.analysisFailed "boom").message "https://cu.example.com" = false ∧
    strContains (ServiceError.analysisFailed "boom").message "prebuilt-invoice" = false ∧
    strContains (ServiceError.analysisFailed "boom").message
        (renderPath exReqFile.file_path) = false := by
  refine ⟨rfl, by decide, by decide, by decide⟩

/-- The failure shapes the orchestrator itself can raise: the fixed
missing-endpoint message, the file-not-found message carrying exactly the
request file reference, the fixed missing-analyzer message, or the
analysis-failure wrapper around the client error text. -/
def errShapeOrchestrator (err : ServiceError)
    (request : InvoiceAnalysisRequest) : Prop :=
  match err with
  | .configError m => m = endpointRequiredMsg
  | .fileNotFound p => p = renderPath request.file_path
  | .missingAnalyzer => True
  | .analysisFailed _ => True

/-- Point update of an environment map. -/
def setEnv (env : EnvMap) (name : String) (v : Option String) : EnvMap :=
  fun n => if n = name then v else env n

/-- The subscription key that resolveConfigFresh derives from a raw
environment value. -/
def keyOfOverride (v : Option String) : Option String :=
  if pyStrip (pyOrDefault v "") = "" then none
  else some (pyStrip (pyOrDefault v ""))

theorem analyzeWithConfig_error_shape (config : ServiceConfig) (fs : List String → Bool)
    (client : String → List String → Option String → Except String Json)
    (request : InvoiceAnalysisRequest) (err : ServiceError)
    (h : analyzeWithConfig config fs client request = Except.error err) :
    errShapeOrchestrator err request := by
  simp only [analyzeWithConfig] at h
  by_cases hfs : fs request.file_path = false
  · rw [if_pos hfs] at h
    simp only [Except.error.injEq] at h
    rw [← h]
    exact rfl
  · rw [if_neg hfs] at h
    by_cases he : effectiveAnalyzerId request config = ""
    · rw [if_pos he] at h
      simp only [Except.error.injEq] at h
      rw [← h]
      exact trivial
    · rw [if_neg he] at h
      cases hc : client (effectiveAnalyzerId request config) request.file_path
          request.content_type with
      | error e =>
        rw [hc] at h
        simp only [Except.error.injEq] at h
        rw [← h]
        exact trivial
      | ok r => rw [hc] at h; simp at h

theorem resolveConfigFresh_error_shape (env : EnvMap) (e : ServiceError)
    (h : resolveConfigFresh env = Except.error e) :
    e = ServiceError.configError endpointRequiredMsg := by
  simp only [resolveConfigFresh] at h
  split at h
  · simp only [Except.error.injEq] at h
    exact h.symm
  · simp at h

/-- analyzeWithConfig never reads the subscription key, so changing it in
the snapshot cannot change any outcome, message included. -/
theorem analyzeWithConfig_key_irrelevant (config : ServiceConfig) (k : Option String)
    (fs : List String → Bool)
    (client : String → List String → Option String → Except String Json)
    (request : InvoiceAnalysisRequest) :
    analyzeWithConfig { config with subscription_key := k } fs client request =
      analyzeWithConfig config fs client request := rfl

theorem get_float_env_setEnv (env : EnvMap) (key name : String) (v : Option String)
    (d : PyFloat) (h : ¬ name = key) :
    _get_float_env (setEnv env key v) name d = _get_float_env env name d := by
  simp only [_get_float_env, setEnv, if_neg h]

/-- Overwriting the secret variable changes only the subscription_key field
of the fresh snapshot. -/
theorem resolveConfigFresh_setKey (env : EnvMap) (v : Option String) :
    resolveConfigFresh (setEnv env "CONTENT_UNDERSTANDING_API_KEY" v) =
      Except.map (fun c => { c with subscription_key := keyOfOverride v })
        (resolveConfigFresh env) := by
  have h1 := get_float_env_setEnv env "CONTENT_UNDERSTANDING_API_KEY"
    "CONTENT_UNDERSTANDING_POLL_INTERVAL_SECONDS" v _DEFAULT_POLL_INTERVAL_SECONDS (by decide)
  have h2 := get_float_env_setEnv env "CONTENT_UNDERSTANDING_API_KEY"
    "CONTENT_UNDERSTANDING_POLL_TIMEOUT_SECONDS" v _DEFAULT_POLL_TIMEOUT_SECONDS (by decide)
  by_cases hend : pyStrip (pyOrDefault (env "CONTENT_UNDERSTANDING_ENDPOINT") "") = ""
  · simp [resolveConfigFresh, setEnv, hend, Except.map]
  · simp [resolveConfigFresh, setEnv, hend, Except.map, h1, h2, keyOfOverride]

theorem ensure_configuration_error_shape (env : EnvMap) (st : ServiceState)
    (e : ServiceError) (st2 : ServiceState)
    (h : _ensure_configuration env st = (Except.error e, st2)) :
    e = ServiceError.configError endpointRequiredMsg := by
  simp only [_ensure_configuration] at h
  cases hst : st.config with
  | some c0 => simp [hst] at h
  | none =>
    simp only [hst] at h
    cases hr : resolveConfigFresh env with
    | error e1 =>
      simp only [hr] at h
      simp only [Prod.mk.injEq, Except.error.injEq] at h
      obtain ⟨hc, _⟩ := h
      rw [← hc]
      exact resolveConfigFresh_error_shape env e1 hr
    | ok c1 => simp [hr] at h

/-- Claim C9 as amended: every failure of the orchestration surfaces as the
single ContentUnderstandingServiceError kind and its message is one of four
shapes built only from fixed text, the request file reference, or the
client-reported error text; the analyzer identifier and endpoint are logged
rather than included in the message, and the message construction never
consults the static secret: overwriting the secret environment variable with
any value leaves the returned outcome, error message included, unchanged. -/
theorem claim_C9_amended (env : EnvMap) (st : ServiceState) (fs : List String → Bool)
    (client : String → List String → Option String → Except String Json)
    (request : InvoiceAnalysisRequest) (v : Option String)
    (err : ServiceError) (st2 : ServiceState)
    (h : ContentUnderstanding.analyze_invoice env st fs client request =
      (Except.error err, st2)) :
    errShapeOrchestrator err request ∧
    (ContentUnderstanding.analyze_invoice
        (setEnv env "CONTENT_UNDERSTANDING_API_KEY" v) st fs client request).1 =
      (ContentUnderstanding.analyze_invoice env st fs client request).1 := by
  constructor
  · simp only [ContentUnderstanding.analyze_invoice] at h
    split at h
    next e st3 heq =>
      simp only [Prod.mk.injEq, Except.error.injEq] at h
      obtain ⟨hc, _⟩ := h
      subst hc
      rw [ensure_configuration_error_shape env st e st3 heq]
      exact rfl
    next config st3 heq =>
      simp only [Prod.mk.injEq] at h
      exact analyzeWithConfig_error_shape config fs client request err h.1
  · simp only [ContentUnderstanding.analyze_invoice, _ensure_configuration]
    cases hst : st.config with
    | some c0 => rfl
    | none =>
      rw [resolveConfigFresh_setKey env v]
      cases hr : resolveConfigFresh env with
      | error e => simp [Except.map]
      | ok c1 => simp [Except.map, analyzeWithConfig_key_irrelevant]

/-- Environment fixture with no variables set. -/
def exEnvNoEndpoint : EnvMap := fun _ => none

/-- Witness for the amended claim C9 at the missing-endpoint failure. -/
theorem claim_C9_amended_witness :
    errShapeOrchestrator (ServiceError.configError endpointRequiredMsg) exReqFile ∧
    (ContentUnderstanding.analyze_invoice
        (setEnv exEnvNoEndpoint "CONTENT_UNDERSTANDING_API_KEY" (some "sekret"))
        { config := none } fsTrue exClientFail exReqFile).1 =
      (ContentUnderstanding.analyze_invoice exEnvNoEndpoint { config := none } fsTrue
        exClientFail exReqFile).1 :=
  claim_C9_amended exEnvNoEndpoint { config := none } fsTrue exClientFail exReqFile
    (some "sekret") (ServiceError.configError endpointRequiredMsg)
    { config := none } rfl
